import Mathlib

/-!
Verification of the per-request pipeline of `async_http` (`src/async_http/app.py`,
class `AsyncHTTPServer`): the middleware chain runners, the handler dispatch,
the error-recovery cascade, the cancellation handling and the output routing of
`handle_request`.

The embedding is shallow: Python exceptions are modelled by an explicit
`Outcome` type, the mutable local variables `response` and `cancelled` of
`handle_request` are threaded explicitly through phase functions that mirror
the `try` / `except` / `finally` structure of the code, and every invocation of
a collaborator (middleware, router, handler, error handler) is recorded in an
event trace so that claims of the form "X is never invoked" are statable.

Exception classes follow the semantics of Python 3.8+, where
`asyncio.CancelledError` derives from `BaseException` but not from `Exception`,
so an `except Exception` clause does not catch a cancellation signal.
-/

set_option autoImplicit false

namespace AsyncHttp

/-- Modelled from the spec: the exception taxonomy of the repository
(`exceptions.py` is not under `src/`): `ServerError` and the other
`AsyncHTTPException` subclasses are expected-error kinds inside the `Exception`
hierarchy; `cancelled` is `asyncio.CancelledError` (a `BaseException` that is
not an `Exception` on Python 3.8+); `baseExc` is any other exception outside
the `Exception` hierarchy; `otherExc` is any other `Exception`.  The `String`
argument models `str(e)`. -/
inductive Exn where
  | cancelled
  | serverError (msg : String)
  | asyncHTTPExc (msg : String)
  | otherExc (msg : String)
  | baseExc (msg : String)
deriving DecidableEq

/-- Python `isinstance(e, CancelledError)`. -/
def Exn.isCancelled : Exn → Bool
  | .cancelled => true
  | _ => false

/-- Whether `except Exception` catches this exception (Python 3.8+ semantics:
`CancelledError` and other bare `BaseException`s are not `Exception`s). -/
def Exn.isException : Exn → Bool
  | .serverError _ => true
  | .asyncHTTPExc _ => true
  | .otherExc _ => true
  | _ => false

/-- Python `isinstance(e, AsyncHTTPException)`. -/
def Exn.isAsyncHTTPException : Exn → Bool
  | .serverError _ => true
  | .asyncHTTPExc _ => true
  | _ => false

/-- Python `str(e)`: the message carried by the exception. -/
def excStr : Exn → String
  | .cancelled => ""
  | .serverError m => m
  | .asyncHTTPExc m => m
  | .otherExc m => m
  | .baseExc m => m

/-- Modelled from the spec: `traceback.format_exc()` renders "a formatted trace
of the failure"; its exact text is runtime-dependent and modelled as a
deterministic function of the exception being handled. -/
def format_exc (e : Exn) : String :=
  "Traceback (most recent call last): " ++ excStr e

/-- Modelled from the spec: the Buffered `Response` variant of `response.py`
(not under `src/`): body bytes, status code, header mapping, content-type. -/
structure HTTPResponse where
  body : String
  status : Nat
  headers : List (String × String)
  contentType : Option String
deriving DecidableEq

/-- A Python value as it can appear in the `response` variable of
`handle_request`: `None`, a Buffered response, a Streaming response (identified
by a tag), a coroutine object that was never awaited to completion
(`awaitableObj`, the value left in `response` when an `await` on it raises),
or any other value carrying only its truthiness. -/
inductive PyVal where
  | none
  | buffered (r : HTTPResponse)
  | streaming (sid : Nat)
  | awaitableObj
  | prim (b : Bool)
deriving DecidableEq

/-- Python truthiness of the modelled values.  Response objects and coroutine
objects define no `__bool__` / `__len__`, hence are truthy. -/
def PyVal.truthy : PyVal → Bool
  | .none => false
  | .buffered _ => true
  | .streaming _ => true
  | .awaitableObj => true
  | .prim b => b

/-- The result of running a piece of Python code: a value, or a raised
exception.  An `await` of a suspended computation that raises is folded into
the same shape. -/
inductive Outcome (α : Type) where
  | ok (v : α)
  | exn (e : Exn)
deriving DecidableEq

/-- Modelled from the spec: the mutable `Request` object of `request.py` (not
under `src/`), restricted to the fields `handle_request` writes: the `app`
back-reference, the `uri_template` and the `endpoint` identifier. -/
structure Request where
  appSet : Bool
  uriTemplate : Option String
  endpoint : Option String
deriving DecidableEq

/-- A pre-handler middleware: called with the request, may return any value or
raise; a returned awaitable is resolved in place, so call and resolution are
folded into one `Outcome`. -/
def ReqMw : Type := Request → Outcome PyVal

/-- A post-handler middleware: called with `(request, response)`. -/
def RespMw : Type := Request → PyVal → Outcome PyVal

/-- The result of awaiting a suspended handler result: an object exposing
`body()`, `status()` and `context().GetResponseHeaders()`. -/
structure AdaptableResult where
  body : String
  status : Nat
  headers : List (String × String)
deriving DecidableEq

/-- The result of calling the handler (before any `await`): either an
immediately available value, or an awaitable whose resolution yields an
`AdaptableResult` or raises. -/
inductive HandlerResult where
  | immediate (v : PyVal)
  | awaitable (a : Outcome AdaptableResult)

/-- A handler as returned by the router: its `__name__`, its optional
`__blueprintname__` attribute, and its behaviour (args and kwargs are folded
into the closure). -/
structure HandlerSpec where
  hname : String
  blueprintname : Option String
  fn : Request → Outcome HandlerResult

/-- The result of calling `error_handler.response` (before any `await`). -/
inductive EhResult where
  | immediate (v : PyVal)
  | awaitable (a : Outcome PyVal)

/-- Modelled from the spec: the `ErrorHandler` of `error_handler.py` (not under
`src/`): a primary mapping `response(request, exception)` that may itself raise
or return an awaitable, and a total `default(request, exception)` producer that
must not fail. -/
structure ErrorHandler where
  response : Request → Exn → Outcome EhResult
  default : Request → Exn → PyVal

/-- The server state consumed by `handle_request`: the fields of
`AsyncHTTPServer.__init__` that the pipeline reads. -/
structure AsyncHTTPServer where
  name : String
  request_middleware : List ReqMw
  response_middleware : List RespMw
  router : Request → Option HandlerSpec × String
  error_handler : ErrorHandler
  debug : Bool

/-- An observable invocation of a collaborator during the pipeline.
Middleware events carry the positional index of the middleware in its list. -/
inductive Event where
  | reqMw (i : Nat)
  | respMw (i : Nat)
  | routerGet
  | handlerCall
  | ehResponseCall
  | ehDefaultCall
deriving DecidableEq

/-- Python `dict.get` on the modelled header mapping (first match wins; Python dict
keys are unique, so this is faithful). -/
def headersGet (hs : List (String × String)) (k : String) : Option String :=
  match hs with
  | [] => Option.none
  | (k2, v) :: rest => if k2 = k then some v else headersGet rest k

/-- The body of `_run_request_middleware`, with the positional index threaded so that the
trace names which middleware ran: iterate in insertion order, resolve each
result, return the first truthy result; return `None` when the list is
exhausted (or empty). -/
def runRequestMiddlewareAux : List ReqMw → Request → Nat → Outcome PyVal × List Event
  | [], _, _ => (Outcome.ok PyVal.none, [])
  | m :: rest, req, i =>
    match m req with
    | .exn e => (.exn e, [Event.reqMw i])
    | .ok v =>
      if v.truthy then (.ok v, [Event.reqMw i])
      else ((runRequestMiddlewareAux rest req (i + 1)).1,
            Event.reqMw i :: (runRequestMiddlewareAux rest req (i + 1)).2)

/-- The call `_run_request_middleware(request)`. -/
def runRequestMiddleware (mws : List ReqMw) (req : Request) :
    Outcome PyVal × List Event :=
  runRequestMiddlewareAux mws req 0

/-- The body of `_run_response_middleware`, indexed like the request runner: each
middleware receives `(request, response)` with `response` the unchanged input;
the first truthy result replaces the response and breaks; otherwise the input
response is returned. -/
def runResponseMiddlewareAux :
    List RespMw → Request → PyVal → Nat → Outcome PyVal × List Event
  | [], _, response, _ => (Outcome.ok response, [])
  | m :: rest, req, response, i =>
    match m req response with
    | .exn e => (.exn e, [Event.respMw i])
    | .ok v =>
      if v.truthy then (.ok v, [Event.respMw i])
      else ((runResponseMiddlewareAux rest req response (i + 1)).1,
            Event.respMw i :: (runResponseMiddlewareAux rest req response (i + 1)).2)

/-- The call `_run_response_middleware(request, response)`. -/
def runResponseMiddleware (mws : List RespMw) (req : Request) (response : PyVal) :
    Outcome PyVal × List Event :=
  runResponseMiddlewareAux mws req response 0

/-- The message of the `ServerError` raised when the router returns no handler
(the source writes it as two adjacent string literals). -/
def serverErrorMsg : String :=
  "\x27None\x27 was returned while requesting a handler from the router"

/-- The method `_build_endpoint_name(*parts)`: joins the server name and the parts with
dots. -/
def build_endpoint_name (name : String) (parts : List String) : String :=
  String.intercalate "." (name :: parts)

/-- Truthiness of `getattr(handler, "__blueprintname__", False)`: absent
attribute gives `False`; an empty-string value is also falsy. -/
def bpTruthy : Option String → Bool
  | Option.none => false
  | some s => s ≠ ""

/-- The request as the pipeline sees it after `request.app = self`. -/
def reqWithApp (req0 : Request) : Request :=
  { req0 with appSet := true }

/-- Result of the body of the outer `try` (lines 100-146): the `response`
variable on normal completion, or the raised exception together with the value
the `response` variable held at the moment of the raise (Python keeps the
variable's last assignment; in particular an `await` that raises leaves the
un-awaited coroutine object in `response`). -/
structure AttemptOut where
  out : Outcome PyVal
  respAtRaise : PyVal
  req : Request
  trace : List Event

/-- The request after `request.uri_template = uri` (line 115). -/
def routedReq (srv : AsyncHTTPServer) (req0 : Request) : Request :=
  { reqWithApp req0 with uriTemplate := some (srv.router (reqWithApp req0)).2 }

/-- The request after `request.endpoint` is assigned (lines 124-132): with the
server name alone when `getattr(handler, "__blueprintname__", False)` is
falsy, and with the blueprint name interposed otherwise. -/
def handlerReq (srv : AsyncHTTPServer) (req0 : Request) (hd : HandlerSpec) : Request :=
  { routedReq srv req0 with endpoint := some (
      if bpTruthy hd.blueprintname then
        build_endpoint_name srv.name [hd.blueprintname.getD "", hd.hname]
      else
        build_endpoint_name srv.name [hd.hname]) }

/-- The body of the outer `try`: set `request.app`, run the pre-handler
middleware chain, and when it yields no truthy response fetch the handler from
the router, set `uri_template`, raise `ServerError` on a `None` handler,
record the endpoint name, call the handler, and normalize its result
(immediate values pass through untouched; awaited values are rebuilt into an
`HTTPResponse` from `body()`, `status()` and
`context().GetResponseHeaders()`). -/
def attemptPhase (srv : AsyncHTTPServer) (req0 : Request) : AttemptOut :=
  match (runRequestMiddleware srv.request_middleware (reqWithApp req0)).1 with
  | .exn e =>
    ⟨.exn e, PyVal.none, reqWithApp req0,
     (runRequestMiddleware srv.request_middleware (reqWithApp req0)).2⟩
  | .ok r =>
    if r.truthy then
      ⟨.ok r, PyVal.none, reqWithApp req0,
       (runRequestMiddleware srv.request_middleware (reqWithApp req0)).2⟩
    else
      match (srv.router (reqWithApp req0)).1 with
      | Option.none =>
        ⟨.exn (.serverError serverErrorMsg), PyVal.none, routedReq srv req0,
         (runRequestMiddleware srv.request_middleware (reqWithApp req0)).2
           ++ [Event.routerGet]⟩
      | some hd =>
        match hd.fn (handlerReq srv req0 hd) with
        | .exn e =>
          ⟨.exn e, PyVal.none, handlerReq srv req0 hd,
           (runRequestMiddleware srv.request_middleware (reqWithApp req0)).2
             ++ [Event.routerGet, Event.handlerCall]⟩
        | .ok (.immediate v) =>
          ⟨.ok v, PyVal.none, handlerReq srv req0 hd,
           (runRequestMiddleware srv.request_middleware (reqWithApp req0)).2
             ++ [Event.routerGet, Event.handlerCall]⟩
        | .ok (.awaitable (.exn e)) =>
          ⟨.exn e, PyVal.awaitableObj, handlerReq srv req0 hd,
           (runRequestMiddleware srv.request_middleware (reqWithApp req0)).2
             ++ [Event.routerGet, Event.handlerCall]⟩
        | .ok (.awaitable (.ok res)) =>
          ⟨.ok (.buffered ⟨res.body, res.status, res.headers,
              headersGet res.headers "Content-Type"⟩),
           PyVal.none, handlerReq srv req0 hd,
           (runRequestMiddleware srv.request_middleware (reqWithApp req0)).2
             ++ [Event.routerGet, Event.handlerCall]⟩

/-- The inner `except Exception as e` of the recovery block (lines 163-178):
expected `AsyncHTTPException`s get the error handler's default response; other
`Exception`s get a 500 whose body depends on the debug flag; anything outside
the `Exception` hierarchy escapes the inner `try`, leaving the `response`
variable at the value `rv` it held when the second exception was raised.
Returns (response, pending escaped exception, trace). -/
def secondaryRecovery (srv : AsyncHTTPServer) (req : Request) (e2 : Exn) (rv : PyVal) :
    PyVal × Option Exn × List Event :=
  if e2.isException then
    if e2.isAsyncHTTPException then
      (srv.error_handler.default req e2, Option.none, [Event.ehDefaultCall])
    else if srv.debug then
      (.buffered ⟨"Error while handling error: " ++ excStr e2 ++ "\nStack: "
          ++ format_exc e2, 500, [], Option.none⟩, Option.none, [])
    else
      (.buffered ⟨"An error occurred while handling an error", 500, [], Option.none⟩,
       Option.none, [])
  else
    (rv, some e2, [])

/-- The state of `handle_request`'s locals when control reaches the `finally`
block: the `response` and `cancelled` variables, plus any exception that is
propagating through the `finally` (`pending`). -/
structure ExceptState where
  response : PyVal
  cancelled : Bool
  pending : Option Exn
  req : Request
  trace : List Event

/-- The outer `except` clauses (lines 147-178) applied to the attempt's
outcome: `except CancelledError` nulls the response and sets `cancelled`;
`except Exception` invokes the error handler's primary mapping, resolving an
awaitable result, with failures of the mapping handled by
`secondaryRecovery`; an exception that matches neither clause propagates with
the `response` variable untouched. -/
def recoveryPhase (srv : AsyncHTTPServer) (att : AttemptOut) : ExceptState :=
  match att.out with
  | .ok r => ⟨r, false, Option.none, att.req, att.trace⟩
  | .exn e =>
    if e.isCancelled then
      ⟨PyVal.none, true, Option.none, att.req, att.trace⟩
    else if e.isException then
      match srv.error_handler.response att.req e with
      | .exn e2 =>
        ⟨(secondaryRecovery srv att.req e2 att.respAtRaise).1, false,
         (secondaryRecovery srv att.req e2 att.respAtRaise).2.1, att.req,
         att.trace ++ Event.ehResponseCall
           :: (secondaryRecovery srv att.req e2 att.respAtRaise).2.2⟩
      | .ok (.immediate v) =>
        ⟨v, false, Option.none, att.req, att.trace ++ [Event.ehResponseCall]⟩
      | .ok (.awaitable (.ok v)) =>
        ⟨v, false, Option.none, att.req, att.trace ++ [Event.ehResponseCall]⟩
      | .ok (.awaitable (.exn e2)) =>
        ⟨(secondaryRecovery srv att.req e2 PyVal.awaitableObj).1, false,
         (secondaryRecovery srv att.req e2 PyVal.awaitableObj).2.1, att.req,
         att.trace ++ Event.ehResponseCall
           :: (secondaryRecovery srv att.req e2 PyVal.awaitableObj).2.2⟩
    else
      ⟨att.respAtRaise, false, some e, att.req, att.trace⟩

/-- The result of the `finally` block before its `if cancelled` check. -/
structure FinallyOut where
  response : PyVal
  cancelled : Bool
  trace : List Event

/-- The `finally` block (lines 179-197): run the post-handler middleware only
when `response is not None`; a `CancelledError` from the chain nulls the
response and sets `cancelled`; any other `BaseException` from the chain is
logged and swallowed, preserving the response; success replaces the
response with the chain's result. -/
def finallyPhase (srv : AsyncHTTPServer) (req : Request) (response : PyVal)
    (cancelled : Bool) : FinallyOut :=
  if response = PyVal.none then ⟨response, cancelled, []⟩
  else
    match (runResponseMiddleware srv.response_middleware req response).1 with
    | .ok v => ⟨v, cancelled, (runResponseMiddleware srv.response_middleware req response).2⟩
    | .exn e =>
      if e.isCancelled then
        ⟨PyVal.none, true, (runResponseMiddleware srv.response_middleware req response).2⟩
      else
        ⟨response, cancelled, (runResponseMiddleware srv.response_middleware req response).2⟩

/-- The observable outcome of one `handle_request` call: the trace of
collaborator invocations, the arguments of every `write_callback` and
`stream_callback` invocation, and the exception propagated to the caller
(`Option.none` when the coroutine returns normally). -/
structure HandleResult where
  trace : List Event
  writes : List PyVal
  streams : List Nat
  raised : Option Exn
deriving DecidableEq

/-- The tail of `handle_request` (lines 198-205) applied to the state after
the `finally`: if the `cancelled` flag is set a fresh `CancelledError` is
raised (replacing any propagating exception, as a `raise` inside `finally`
does); otherwise a propagating exception continues to the caller; otherwise
the final response is dispatched to `stream_callback` when it is a
`StreamingHTTPResponse` and to `write_callback` otherwise. -/
def handleTail (st : ExceptState) (fin : FinallyOut) : HandleResult :=
  if fin.cancelled then ⟨st.trace ++ fin.trace, [], [], some .cancelled⟩
  else
    match st.pending with
    | some e => ⟨st.trace ++ fin.trace, [], [], some e⟩
    | Option.none =>
      match fin.response with
      | .streaming s => ⟨st.trace ++ fin.trace, [], [s], Option.none⟩
      | r => ⟨st.trace ++ fin.trace, [r], [], Option.none⟩

/-- The coroutine `handle_request(request, write_callback, stream_callback)`: the attempt
phase under the outer `except` clauses, then the `finally` block, then the
cancellation re-raise / exception propagation / output routing tail. -/
def handle_request (srv : AsyncHTTPServer) (req0 : Request) : HandleResult :=
  handleTail (recoveryPhase srv (attemptPhase srv req0))
    (finallyPhase srv (recoveryPhase srv (attemptPhase srv req0)).req
      (recoveryPhase srv (attemptPhase srv req0)).response
      (recoveryPhase srv (attemptPhase srv req0)).cancelled)

/-- The property claimed of every `handle_request` execution by the spec
invariant: either exactly one of the two output callbacks is invoked exactly
once, or a cancellation is re-raised with neither callback invoked. -/
def claimC1Holds (srv : AsyncHTTPServer) (req0 : Request) : Prop :=
  ((handle_request srv req0).raised = Option.none
     ∧ (handle_request srv req0).writes.length
         + (handle_request srv req0).streams.length = 1)
  ∨ ((handle_request srv req0).raised = some Exn.cancelled
     ∧ (handle_request srv req0).writes = []
     ∧ (handle_request srv req0).streams = [])

/-! Concrete collaborators used to exercise the pipeline on closed inputs. -/

/-- A fresh request as the transport layer would hand it to the pipeline. -/
def wReq : Request := ⟨false, Option.none, Option.none⟩

def okResp : HTTPResponse := ⟨"ok", 200, [], Option.none⟩

def okRespVal : PyVal := PyVal.buffered okResp

def replacedVal : PyVal := PyVal.buffered ⟨"replaced", 201, [], Option.none⟩

def defaultVal : PyVal := PyVal.buffered ⟨"default", 400, [], Option.none⟩

/-- A pre-handler middleware returning `None` (continue). -/
def mwNone : ReqMw := fun _ => Outcome.ok PyVal.none

/-- A pre-handler middleware returning a truthy response (short-circuit). -/
def mwResp : ReqMw := fun _ => Outcome.ok okRespVal

/-- A post-handler middleware returning `None` (keep the response). -/
def rmwNone : RespMw := fun _ _ => Outcome.ok PyVal.none

/-- A post-handler middleware returning a replacement response. -/
def rmwReplace : RespMw := fun _ _ => Outcome.ok replacedVal

/-- A post-handler middleware in which a cancellation signal fires. -/
def rmwCancel : RespMw := fun _ _ => Outcome.exn Exn.cancelled

/-- A post-handler middleware raising an ordinary `Exception`. -/
def rmwFail : RespMw := fun _ _ => Outcome.exn (Exn.otherExc "mw fail")

/-- A post-handler middleware raising a signal outside the `Exception`
hierarchy. -/
def rmwBase : RespMw := fun _ _ => Outcome.exn (Exn.baseExc "sig")

/-- A handler returning an immediate buffered response. -/
def hOk : HandlerSpec := ⟨"h", Option.none, fun _ => Outcome.ok (.immediate okRespVal)⟩

/-- A handler returning an immediate `None`. -/
def hNone : HandlerSpec := ⟨"h", Option.none, fun _ => Outcome.ok (.immediate PyVal.none)⟩

def wAdapt : AdaptableResult := ⟨"body", 201, [("Content-Type", "text/plain")]⟩

/-- A handler returning an awaitable that resolves to an adaptable result. -/
def hAwait : HandlerSpec :=
  ⟨"h", Option.none, fun _ => Outcome.ok (.awaitable (Outcome.ok wAdapt))⟩

/-- A handler raising a signal outside the `Exception` hierarchy. -/
def hBase : HandlerSpec := ⟨"h", Option.none, fun _ => Outcome.exn (Exn.baseExc "boom")⟩

/-- A handler in which a cancellation signal fires. -/
def hCancel : HandlerSpec := ⟨"h", Option.none, fun _ => Outcome.exn Exn.cancelled⟩

/-- A handler raising an ordinary `Exception`. -/
def hFail : HandlerSpec :=
  ⟨"h", Option.none, fun _ => Outcome.exn (Exn.otherExc "first failure")⟩

def ehDefaultFn : Request → Exn → PyVal := fun _ _ => defaultVal

/-- An error handler whose primary mapping succeeds. -/
def ehOk : ErrorHandler := ⟨fun _ _ => Outcome.ok (.immediate okRespVal), ehDefaultFn⟩

/-- An error handler whose primary mapping raises an `AsyncHTTPException`. -/
def ehRaiseHTTP : ErrorHandler :=
  ⟨fun _ _ => Outcome.exn (Exn.asyncHTTPExc "second failure"), ehDefaultFn⟩

/-- An error handler whose primary mapping raises a generic `Exception`. -/
def ehRaiseGeneric : ErrorHandler :=
  ⟨fun _ _ => Outcome.exn (Exn.otherExc "second failure"), ehDefaultFn⟩

/-- An error handler whose primary mapping is interrupted by cancellation. -/
def ehRaiseCancel : ErrorHandler := ⟨fun _ _ => Outcome.exn Exn.cancelled, ehDefaultFn⟩

/-- A router resolving every request to the given handler. -/
def routerOf (hd : HandlerSpec) : Request → Option HandlerSpec × String :=
  fun _ => (some hd, "/")

/-- A router that yields no handler. -/
def routerNone : Request → Option HandlerSpec × String := fun _ => (Option.none, "/")

/-- A server with the given middleware, router, error handler and debug flag. -/
def mkSrv (rmw : List ReqMw) (pmw : List RespMw)
    (router : Request → Option HandlerSpec × String) (eh : ErrorHandler)
    (dbg : Bool) : AsyncHTTPServer :=
  ⟨"server", rmw, pmw, router, eh, dbg⟩

/-- The server of the C1 counterexample: its handler raises a signal outside
the `Exception` hierarchy. -/
def cxSrv : AsyncHTTPServer := mkSrv [] [] (routerOf hBase) ehOk false

/-- A server whose second pre-handler middleware short-circuits. -/
def c2Srv : AsyncHTTPServer := mkSrv [mwNone, mwResp, mwNone] [] (routerOf hOk) ehOk false

/-- A server whose only pre-handler middleware declines. -/
def c2SrvB : AsyncHTTPServer := mkSrv [mwNone] [] (routerOf hOk) ehOk false

/-- A server whose second post-handler middleware replaces the response. -/
def c3Srv : AsyncHTTPServer := mkSrv [] [rmwNone, rmwReplace, rmwNone] (routerOf hOk) ehOk false

/-- A server whose only post-handler middleware declines. -/
def c3SrvB : AsyncHTTPServer := mkSrv [] [rmwNone] (routerOf hOk) ehOk false

/-- A server with a post-handler middleware but a handler returning `None`. -/
def c3SrvC : AsyncHTTPServer := mkSrv [] [rmwReplace] (routerOf hNone) ehOk false

def c4Srv : AsyncHTTPServer := mkSrv [] [] (routerOf hOk) ehOk false

def c4SrvB : AsyncHTTPServer := mkSrv [] [] (routerOf hAwait) ehOk false

/-- A server whose router yields no handler. -/
def c5Srv : AsyncHTTPServer := mkSrv [] [] routerNone ehOk false

/-- Double failure where the second exception is an `AsyncHTTPException`. -/
def c6Srv : AsyncHTTPServer := mkSrv [] [] (routerOf hFail) ehRaiseHTTP false

/-- Generic double failure with the debug flag enabled. -/
def c6SrvDbg : AsyncHTTPServer := mkSrv [] [] (routerOf hFail) ehRaiseGeneric true

/-- Generic double failure with the debug flag disabled. -/
def c6SrvProd : AsyncHTTPServer := mkSrv [] [] (routerOf hFail) ehRaiseGeneric false

/-- Cancellation firing inside the handler. -/
def c7Srv : AsyncHTTPServer := mkSrv [] [] (routerOf hCancel) ehOk false

/-- Cancellation firing while the error handler primary mapping runs. -/
def c7SrvB : AsyncHTTPServer := mkSrv [] [] (routerOf hFail) ehRaiseCancel false

/-- Cancellation firing inside a post-handler middleware. -/
def c8SrvCancel : AsyncHTTPServer := mkSrv [] [rmwCancel] (routerOf hOk) ehOk false

/-- A post-handler middleware raising an ordinary exception. -/
def c8SrvSwallow : AsyncHTTPServer := mkSrv [] [rmwFail] (routerOf hOk) ehOk false

/-- A handler returning an immediate `None`, with a post-handler middleware
registered. -/
def c9Srv : AsyncHTTPServer := mkSrv [] [rmwReplace] (routerOf hNone) ehOk false

/-- A post-handler middleware raising a non-cancellation signal outside the
`Exception` hierarchy. -/
def c10Srv : AsyncHTTPServer := mkSrv [] [rmwBase] (routerOf hOk) ehOk false

/-- Whether an outcome of the error handler primary mapping stays inside the
`Exception` hierarchy (no cancellation, no bare `BaseException`), both at call
time and when its awaitable is resolved. -/
def ehTame : Outcome EhResult → Prop
  | .exn e => e.isException = true
  | .ok (.awaitable (.exn e)) => e.isException = true
  | _ => True

/-! Characterizations of the two middleware chain runners. -/

lemma runReqAux_firstTruthy :
    ∀ (pre : List ReqMw) (m : ReqMw) (post : List ReqMw) (req : Request) (i : Nat)
      (w : PyVal),
    (∀ m2 ∈ pre, ∃ v, m2 req = Outcome.ok v ∧ v.truthy = false) →
    m req = Outcome.ok w → w.truthy = true →
    runRequestMiddlewareAux (pre ++ m :: post) req i
      = (Outcome.ok w, (List.range' i (pre.length + 1)).map Event.reqMw) := by
  intro pre
  induction pre with
  | nil =>
    intro m post req i w hpre hm hw
    simp [runRequestMiddlewareAux, hm, hw]
  | cons p ps ih =>
    intro m post req i w hpre hm hw
    obtain ⟨v, hv, hvf⟩ := hpre p (List.mem_cons_self p ps)
    have hrest : ∀ m2 ∈ ps, ∃ v, m2 req = Outcome.ok v ∧ v.truthy = false :=
      fun m2 h => hpre m2 (List.mem_cons_of_mem p h)
    simp only [List.cons_append, runRequestMiddlewareAux, hv, hvf, Bool.false_eq_true,
      if_false, List.append_eq]
    rw [ih m post req (i + 1) w hrest hm hw]
    simp [List.range'_succ]

lemma runReqAux_allFalsy :
    ∀ (mws : List ReqMw) (req : Request) (i : Nat),
    (∀ m2 ∈ mws, ∃ v, m2 req = Outcome.ok v ∧ v.truthy = false) →
    runRequestMiddlewareAux mws req i
      = (Outcome.ok PyVal.none, (List.range' i mws.length).map Event.reqMw) := by
  intro mws
  induction mws with
  | nil => intro req i _; simp [runRequestMiddlewareAux]
  | cons p ps ih =>
    intro req i hpre
    obtain ⟨v, hv, hvf⟩ := hpre p (List.mem_cons_self p ps)
    have hrest : ∀ m2 ∈ ps, ∃ v, m2 req = Outcome.ok v ∧ v.truthy = false :=
      fun m2 h => hpre m2 (List.mem_cons_of_mem p h)
    simp only [runRequestMiddlewareAux, hv, hvf, Bool.false_eq_true, if_false]
    rw [ih req (i + 1) hrest]
    simp [List.range'_succ]

lemma runRespAux_firstTruthy :
    ∀ (pre : List RespMw) (m : RespMw) (post : List RespMw) (req : Request)
      (r : PyVal) (i : Nat) (w : PyVal),
    (∀ m2 ∈ pre, ∃ v, m2 req r = Outcome.ok v ∧ v.truthy = false) →
    m req r = Outcome.ok w → w.truthy = true →
    runResponseMiddlewareAux (pre ++ m :: post) req r i
      = (Outcome.ok w, (List.range' i (pre.length + 1)).map Event.respMw) := by
  intro pre
  induction pre with
  | nil =>
    intro m post req r i w hpre hm hw
    simp [runResponseMiddlewareAux, hm, hw]
  | cons p ps ih =>
    intro m post req r i w hpre hm hw
    obtain ⟨v, hv, hvf⟩ := hpre p (List.mem_cons_self p ps)
    have hrest : ∀ m2 ∈ ps, ∃ v, m2 req r = Outcome.ok v ∧ v.truthy = false :=
      fun m2 h => hpre m2 (List.mem_cons_of_mem p h)
    simp only [List.cons_append, runResponseMiddlewareAux, hv, hvf, Bool.false_eq_true,
      if_false, List.append_eq]
    rw [ih m post req r (i + 1) w hrest hm hw]
    simp [List.range'_succ]

lemma runRespAux_allFalsy :
    ∀ (mws : List RespMw) (req : Request) (r : PyVal) (i : Nat),
    (∀ m2 ∈ mws, ∃ v, m2 req r = Outcome.ok v ∧ v.truthy = false) →
    runResponseMiddlewareAux mws req r i
      = (Outcome.ok r, (List.range' i mws.length).map Event.respMw) := by
  intro mws
  induction mws with
  | nil => intro req r i _; simp [runResponseMiddlewareAux]
  | cons p ps ih =>
    intro req r i hpre
    obtain ⟨v, hv, hvf⟩ := hpre p (List.mem_cons_self p ps)
    have hrest : ∀ m2 ∈ ps, ∃ v, m2 req r = Outcome.ok v ∧ v.truthy = false :=
      fun m2 h => hpre m2 (List.mem_cons_of_mem p h)
    simp only [runResponseMiddlewareAux, hv, hvf, Bool.false_eq_true, if_false]
    rw [ih req r (i + 1) hrest]
    simp [List.range'_succ]

/-! Shape of the traces emitted by each phase. -/

lemma mem_runReqAux_trace :
    ∀ (mws : List ReqMw) (req : Request) (i : Nat) (ev : Event),
    ev ∈ (runRequestMiddlewareAux mws req i).2 → ∃ j, ev = Event.reqMw j := by
  intro mws
  induction mws with
  | nil => intro req i ev h; simp [runRequestMiddlewareAux] at h
  | cons m rest ih =>
    intro req i ev h
    simp only [runRequestMiddlewareAux] at h
    rcases hm : m req with v | e
    · rw [hm] at h
      simp only at h
      by_cases ht : v.truthy
      · rw [if_pos ht] at h
        simp at h
        exact ⟨i, h⟩
      · rw [if_neg ht] at h
        rcases List.mem_cons.mp h with h1 | h1
        · exact ⟨i, h1⟩
        · exact ih req (i + 1) ev h1
    · rw [hm] at h
      simp at h
      exact ⟨i, h⟩

lemma mem_runRespAux_trace :
    ∀ (mws : List RespMw) (req : Request) (r : PyVal) (i : Nat) (ev : Event),
    ev ∈ (runResponseMiddlewareAux mws req r i).2 → ∃ j, ev = Event.respMw j := by
  intro mws
  induction mws with
  | nil => intro req r i ev h; simp [runResponseMiddlewareAux] at h
  | cons m rest ih =>
    intro req r i ev h
    simp only [runResponseMiddlewareAux] at h
    rcases hm : m req r with v | e
    · rw [hm] at h
      simp only at h
      by_cases ht : v.truthy
      · rw [if_pos ht] at h
        simp at h
        exact ⟨i, h⟩
      · rw [if_neg ht] at h
        rcases List.mem_cons.mp h with h1 | h1
        · exact ⟨i, h1⟩
        · exact ih req r (i + 1) ev h1
    · rw [hm] at h
      simp at h
      exact ⟨i, h⟩

lemma mem_attempt_trace (srv : AsyncHTTPServer) (req0 : Request) (ev : Event) :
    ev ∈ (attemptPhase srv req0).trace →
    (∃ j, ev = Event.reqMw j) ∨ ev = Event.routerGet ∨ ev = Event.handlerCall := by
  intro h
  unfold attemptPhase at h
  split at h
  · exact Or.inl (mem_runReqAux_trace _ _ _ _ h)
  · split at h
    · exact Or.inl (mem_runReqAux_trace _ _ _ _ h)
    · split at h
      · simp only at h
        rcases List.mem_append.mp h with h1 | h1
        · exact Or.inl (mem_runReqAux_trace _ _ _ _ h1)
        · simp at h1
          exact Or.inr (Or.inl h1)
      · split at h <;>
        · simp only at h
          rcases List.mem_append.mp h with h1 | h1
          · exact Or.inl (mem_runReqAux_trace _ _ _ _ h1)
          · simp at h1
            rcases h1 with h1 | h1
            · exact Or.inr (Or.inl h1)
            · exact Or.inr (Or.inr h1)

lemma mem_finally_trace (srv : AsyncHTTPServer) (req : Request) (response : PyVal)
    (cancelled : Bool) (ev : Event) :
    ev ∈ (finallyPhase srv req response cancelled).trace → ∃ j, ev = Event.respMw j := by
  intro h
  unfold finallyPhase at h
  split at h
  · simp at h
  · split at h
    · exact mem_runRespAux_trace _ _ _ _ _ h
    · split at h
      · exact mem_runRespAux_trace _ _ _ _ _ h
      · exact mem_runRespAux_trace _ _ _ _ _ h

lemma mem_secondaryRecovery_trace (srv : AsyncHTTPServer) (req : Request) (e2 : Exn)
    (rv : PyVal) (ev : Event) :
    ev ∈ (secondaryRecovery srv req e2 rv).2.2 → ev = Event.ehDefaultCall := by
  intro h
  unfold secondaryRecovery at h
  split at h
  · split at h
    · simp at h
      exact h
    · split at h <;> simp at h
  · simp at h

lemma mem_recovery_trace (srv : AsyncHTTPServer) (att : AttemptOut) (ev : Event) :
    ev ∈ (recoveryPhase srv att).trace →
    ev ∈ att.trace ∨ ev = Event.ehResponseCall ∨ ev = Event.ehDefaultCall := by
  intro h
  unfold recoveryPhase at h
  split at h
  · exact Or.inl h
  · split at h
    · exact Or.inl h
    · split at h
      · split at h
        · simp only at h
          rcases List.mem_append.mp h with h1 | h1
          · exact Or.inl h1
          · rcases List.mem_cons.mp h1 with h2 | h2
            · exact Or.inr (Or.inl h2)
            · exact Or.inr (Or.inr (mem_secondaryRecovery_trace _ _ _ _ _ h2))
        · simp only at h
          rcases List.mem_append.mp h with h1 | h1
          · exact Or.inl h1
          · simp at h1
            exact Or.inr (Or.inl h1)
        · simp only at h
          rcases List.mem_append.mp h with h1 | h1
          · exact Or.inl h1
          · simp at h1
            exact Or.inr (Or.inl h1)
        · simp only at h
          rcases List.mem_append.mp h with h1 | h1
          · exact Or.inl h1
          · rcases List.mem_cons.mp h1 with h2 | h2
            · exact Or.inr (Or.inl h2)
            · exact Or.inr (Or.inr (mem_secondaryRecovery_trace _ _ _ _ _ h2))
      · exact Or.inl h

/-! Small-step characterizations of the phases. -/

lemma attemptPhase_shortCircuit (srv : AsyncHTTPServer) (req0 : Request) (r : PyVal)
    (hmw : (runRequestMiddleware srv.request_middleware (reqWithApp req0)).1
      = Outcome.ok r)
    (ht : r.truthy = true) :
    attemptPhase srv req0
      = ⟨Outcome.ok r, PyVal.none, reqWithApp req0,
         (runRequestMiddleware srv.request_middleware (reqWithApp req0)).2⟩ := by
  unfold attemptPhase
  rw [hmw]
  simp [ht]

lemma attemptPhase_routerNone (srv : AsyncHTTPServer) (req0 : Request)
    (hmw : (runRequestMiddleware srv.request_middleware (reqWithApp req0)).1
      = Outcome.ok PyVal.none)
    (hr : (srv.router (reqWithApp req0)).1 = Option.none) :
    attemptPhase srv req0
      = ⟨Outcome.exn (.serverError serverErrorMsg), PyVal.none, routedReq srv req0,
         (runRequestMiddleware srv.request_middleware (reqWithApp req0)).2
           ++ [Event.routerGet]⟩ := by
  unfold attemptPhase
  rw [hmw]
  simp [PyVal.truthy, hr]

lemma attemptPhase_handler (srv : AsyncHTTPServer) (req0 : Request) (hd : HandlerSpec)
    (hmw : (runRequestMiddleware srv.request_middleware (reqWithApp req0)).1
      = Outcome.ok PyVal.none)
    (hr : (srv.router (reqWithApp req0)).1 = some hd) :
    attemptPhase srv req0
      = (match hd.fn (handlerReq srv req0 hd) with
        | .exn e =>
          ⟨.exn e, PyVal.none, handlerReq srv req0 hd,
           (runRequestMiddleware srv.request_middleware (reqWithApp req0)).2
             ++ [Event.routerGet, Event.handlerCall]⟩
        | .ok (.immediate v) =>
          ⟨.ok v, PyVal.none, handlerReq srv req0 hd,
           (runRequestMiddleware srv.request_middleware (reqWithApp req0)).2
             ++ [Event.routerGet, Event.handlerCall]⟩
        | .ok (.awaitable (.exn e)) =>
          ⟨.exn e, PyVal.awaitableObj, handlerReq srv req0 hd,
           (runRequestMiddleware srv.request_middleware (reqWithApp req0)).2
             ++ [Event.routerGet, Event.handlerCall]⟩
        | .ok (.awaitable (.ok res)) =>
          ⟨.ok (.buffered ⟨res.body, res.status, res.headers,
              headersGet res.headers "Content-Type"⟩),
           PyVal.none, handlerReq srv req0 hd,
           (runRequestMiddleware srv.request_middleware (reqWithApp req0)).2
             ++ [Event.routerGet, Event.handlerCall]⟩) := by
  unfold attemptPhase
  rw [hmw]
  simp [PyVal.truthy, hr]

lemma recoveryPhase_ok (srv : AsyncHTTPServer) (att : AttemptOut) (r : PyVal)
    (h : att.out = Outcome.ok r) :
    recoveryPhase srv att = ⟨r, false, Option.none, att.req, att.trace⟩ := by
  unfold recoveryPhase
  rw [h]

lemma recoveryPhase_cancelled (srv : AsyncHTTPServer) (att : AttemptOut)
    (h : att.out = Outcome.exn Exn.cancelled) :
    recoveryPhase srv att = ⟨PyVal.none, true, Option.none, att.req, att.trace⟩ := by
  unfold recoveryPhase
  rw [h]
  simp [Exn.isCancelled]

lemma recoveryPhase_base (srv : AsyncHTTPServer) (att : AttemptOut) (e : Exn)
    (h : att.out = Outcome.exn e) (hc : e.isCancelled = false)
    (he : e.isException = false) :
    recoveryPhase srv att = ⟨att.respAtRaise, false, some e, att.req, att.trace⟩ := by
  unfold recoveryPhase
  rw [h]
  simp [hc, he]

lemma finallyPhase_noneResp (srv : AsyncHTTPServer) (req : Request) (c : Bool) :
    finallyPhase srv req PyVal.none c = ⟨PyVal.none, c, []⟩ := by
  unfold finallyPhase
  simp

lemma finallyPhase_ok (srv : AsyncHTTPServer) (req : Request) (r : PyVal) (c : Bool)
    (v : PyVal) (hr : ¬ r = PyVal.none)
    (h : (runResponseMiddleware srv.response_middleware req r).1 = Outcome.ok v) :
    finallyPhase srv req r c
      = ⟨v, c, (runResponseMiddleware srv.response_middleware req r).2⟩ := by
  unfold finallyPhase
  rw [if_neg hr, h]

lemma finallyPhase_cancel (srv : AsyncHTTPServer) (req : Request) (r : PyVal) (c : Bool)
    (hr : ¬ r = PyVal.none)
    (h : (runResponseMiddleware srv.response_middleware req r).1
      = Outcome.exn Exn.cancelled) :
    finallyPhase srv req r c
      = ⟨PyVal.none, true, (runResponseMiddleware srv.response_middleware req r).2⟩ := by
  unfold finallyPhase
  rw [if_neg hr, h]
  simp [Exn.isCancelled]

lemma finallyPhase_swallow (srv : AsyncHTTPServer) (req : Request) (r : PyVal) (c : Bool)
    (e : Exn) (hr : ¬ r = PyVal.none)
    (h : (runResponseMiddleware srv.response_middleware req r).1 = Outcome.exn e)
    (he : e.isCancelled = false) :
    finallyPhase srv req r c
      = ⟨r, c, (runResponseMiddleware srv.response_middleware req r).2⟩ := by
  unfold finallyPhase
  rw [if_neg hr, h]
  simp [he]

/-! The pending-exception invariant: any exception that escapes the inner
recovery `try` is outside the `Exception` hierarchy. -/

lemma secondaryRecovery_pending (srv : AsyncHTTPServer) (req : Request) (e2 : Exn)
    (rv : PyVal) (e : Exn) :
    (secondaryRecovery srv req e2 rv).2.1 = some e → e.isException = false := by
  unfold secondaryRecovery
  split
  · split
    · intro h
      simp at h
    · split <;> (intro h; simp at h)
  · rename_i hne
    intro h
    simp at h
    subst h
    simpa using hne

lemma recovery_pending_not_exception (srv : AsyncHTTPServer) (att : AttemptOut)
    (e : Exn) :
    (recoveryPhase srv att).pending = some e → e.isException = false := by
  unfold recoveryPhase
  split
  · intro h
    simp at h
  · split
    · intro h
      simp at h
    · split
      · split
        · exact fun h => secondaryRecovery_pending _ _ _ _ _ h
        · intro h
          simp at h
        · intro h
          simp at h
        · exact fun h => secondaryRecovery_pending _ _ _ _ _ h
      · rename_i hce hexc
        intro h
        simp at h
        subst h
        simpa using hexc

lemma handleTail_cases (st : ExceptState) (fin : FinallyOut)
    (hp : ∀ e, st.pending = some e → e.isException = false) :
    ((handleTail st fin).raised = Option.none
       ∧ (handleTail st fin).writes.length + (handleTail st fin).streams.length = 1)
    ∨ (∃ e, (handleTail st fin).raised = some e
       ∧ (handleTail st fin).writes = []
       ∧ (handleTail st fin).streams = []
       ∧ (e = Exn.cancelled ∨ (e.isCancelled = false ∧ e.isException = false))) := by
  unfold handleTail
  split
  · exact Or.inr ⟨.cancelled, rfl, rfl, rfl, Or.inl rfl⟩
  · split
    · rename_i e heq
      refine Or.inr ⟨e, rfl, rfl, rfl, ?_⟩
      by_cases hc : e = Exn.cancelled
      · exact Or.inl hc
      · refine Or.inr ⟨?_, hp e heq⟩
        cases e <;> simp_all [Exn.isCancelled]
    · split
      · exact Or.inl ⟨rfl, rfl⟩
      · exact Or.inl ⟨rfl, rfl⟩

/-! Further small-step characterizations used by the claim proofs. -/

lemma secondaryRecovery_notException (srv : AsyncHTTPServer) (req : Request) (e2 : Exn)
    (rv : PyVal) (h : e2.isException = false) :
    secondaryRecovery srv req e2 rv = (rv, some e2, []) := by
  unfold secondaryRecovery
  simp [h]

lemma secondaryRecovery_http (srv : AsyncHTTPServer) (req : Request) (e2 : Exn)
    (rv : PyVal) (h : e2.isException = true) (h2 : e2.isAsyncHTTPException = true) :
    secondaryRecovery srv req e2 rv
      = (srv.error_handler.default req e2, Option.none, [Event.ehDefaultCall]) := by
  unfold secondaryRecovery
  simp [h, h2]

lemma secondaryRecovery_debug (srv : AsyncHTTPServer) (req : Request) (e2 : Exn)
    (rv : PyVal) (h : e2.isException = true) (h2 : e2.isAsyncHTTPException = false)
    (hd : srv.debug = true) :
    secondaryRecovery srv req e2 rv
      = (.buffered ⟨"Error while handling error: " ++ excStr e2 ++ "\nStack: "
          ++ format_exc e2, 500, [], Option.none⟩, Option.none, []) := by
  unfold secondaryRecovery
  simp [h, h2, hd]

lemma secondaryRecovery_fixed500 (srv : AsyncHTTPServer) (req : Request) (e2 : Exn)
    (rv : PyVal) (h : e2.isException = true) (h2 : e2.isAsyncHTTPException = false)
    (hd : srv.debug = false) :
    secondaryRecovery srv req e2 rv
      = (.buffered ⟨"An error occurred while handling an error", 500, [], Option.none⟩,
         Option.none, []) := by
  unfold secondaryRecovery
  simp [h, h2, hd]

lemma recoveryPhase_eh_sync_exn (srv : AsyncHTTPServer) (att : AttemptOut) (e e2 : Exn)
    (h : att.out = Outcome.exn e) (hc : e.isCancelled = false)
    (he : e.isException = true)
    (heh : srv.error_handler.response att.req e = Outcome.exn e2) :
    recoveryPhase srv att
      = ⟨(secondaryRecovery srv att.req e2 att.respAtRaise).1, false,
         (secondaryRecovery srv att.req e2 att.respAtRaise).2.1, att.req,
         att.trace ++ Event.ehResponseCall
           :: (secondaryRecovery srv att.req e2 att.respAtRaise).2.2⟩ := by
  unfold recoveryPhase
  rw [h]
  simp [hc, he, heh]

lemma recoveryPhase_eh_await_exn (srv : AsyncHTTPServer) (att : AttemptOut) (e e2 : Exn)
    (h : att.out = Outcome.exn e) (hc : e.isCancelled = false)
    (he : e.isException = true)
    (heh : srv.error_handler.response att.req e
      = Outcome.ok (.awaitable (Outcome.exn e2))) :
    recoveryPhase srv att
      = ⟨(secondaryRecovery srv att.req e2 PyVal.awaitableObj).1, false,
         (secondaryRecovery srv att.req e2 PyVal.awaitableObj).2.1, att.req,
         att.trace ++ Event.ehResponseCall
           :: (secondaryRecovery srv att.req e2 PyVal.awaitableObj).2.2⟩ := by
  unfold recoveryPhase
  rw [h]
  simp [hc, he, heh]

lemma recoveryPhase_eh_immediate (srv : AsyncHTTPServer) (att : AttemptOut) (e : Exn)
    (v : PyVal) (h : att.out = Outcome.exn e) (hc : e.isCancelled = false)
    (he : e.isException = true)
    (heh : srv.error_handler.response att.req e = Outcome.ok (.immediate v)) :
    recoveryPhase srv att
      = ⟨v, false, Option.none, att.req, att.trace ++ [Event.ehResponseCall]⟩ := by
  unfold recoveryPhase
  rw [h]
  simp [hc, he, heh]

lemma recoveryPhase_eh_await_ok (srv : AsyncHTTPServer) (att : AttemptOut) (e : Exn)
    (v : PyVal) (h : att.out = Outcome.exn e) (hc : e.isCancelled = false)
    (he : e.isException = true)
    (heh : srv.error_handler.response att.req e
      = Outcome.ok (.awaitable (Outcome.ok v))) :
    recoveryPhase srv att
      = ⟨v, false, Option.none, att.req, att.trace ++ [Event.ehResponseCall]⟩ := by
  unfold recoveryPhase
  rw [h]
  simp [hc, he, heh]

lemma handleTail_trace (st : ExceptState) (fin : FinallyOut) :
    (handleTail st fin).trace = st.trace ++ fin.trace := by
  unfold handleTail
  split
  · rfl
  · split
    · rfl
    · split <;> rfl

lemma handleTail_pending_cancel (st : ExceptState) (fin : FinallyOut)
    (hp : st.pending = some Exn.cancelled) :
    (handleTail st fin).raised = some Exn.cancelled
    ∧ (handleTail st fin).writes = [] ∧ (handleTail st fin).streams = [] := by
  unfold handleTail
  split
  · exact ⟨rfl, rfl, rfl⟩
  · rw [hp]
    exact ⟨rfl, rfl, rfl⟩

lemma handleTail_one_callback (st : ExceptState) (fin : FinallyOut)
    (hp : st.pending = Option.none) (hc : fin.cancelled = false) :
    (handleTail st fin).raised = Option.none
    ∧ (handleTail st fin).writes.length + (handleTail st fin).streams.length = 1 := by
  unfold handleTail
  rw [hp, hc]
  simp only [Bool.false_eq_true, if_false]
  split
  · exact ⟨rfl, rfl⟩
  · exact ⟨rfl, rfl⟩

lemma handleTail_delivers (st : ExceptState) (fin : FinallyOut)
    (hp : st.pending = Option.none) (hc : fin.cancelled = false) :
    (handleTail st fin).raised = Option.none
    ∧ (handleTail st fin).writes
        ++ (handleTail st fin).streams.map PyVal.streaming = [fin.response] := by
  unfold handleTail
  rw [hp, hc]
  simp only [Bool.false_eq_true, if_false]
  split
  · rename_i s hs
    exact ⟨rfl, by simp [hs]⟩
  · exact ⟨rfl, by simp⟩

lemma runRespAux_no_cancel (mws : List RespMw) (req : Request) (r : PyVal) (i : Nat)
    (h : ∀ m ∈ mws, ∀ rq v, m rq v ≠ Outcome.exn Exn.cancelled) :
    (runResponseMiddlewareAux mws req r i).1 ≠ Outcome.exn Exn.cancelled := by
  induction mws generalizing r i with
  | nil => simp [runResponseMiddlewareAux]
  | cons m rest ih =>
    have hm := h m (List.mem_cons_self m rest)
    have hrest : ∀ m2 ∈ rest, ∀ rq v, m2 rq v ≠ Outcome.exn Exn.cancelled :=
      fun m2 h2 => h m2 (List.mem_cons_of_mem m h2)
    simp only [runResponseMiddlewareAux]
    rcases hmr : m req r with v | e
    · by_cases ht : v.truthy
      · simp [ht]
      · simp only [ht, Bool.false_eq_true, if_false]
        exact ih r (i + 1) hrest
    · intro hcontra
      simp at hcontra
      exact hm req r (by rw [hmr, hcontra])

lemma finallyPhase_no_cancel (srv : AsyncHTTPServer) (req : Request) (r : PyVal)
    (hnc : ∀ m ∈ srv.response_middleware, ∀ rq v, m rq v ≠ Outcome.exn Exn.cancelled) :
    (finallyPhase srv req r false).cancelled = false := by
  unfold finallyPhase
  split
  · rfl
  · split
    · rfl
    · rename_i e he
      split
      · rename_i hcanc
        exfalso
        have : e = Exn.cancelled := by
          cases e <;> simp_all [Exn.isCancelled]
        subst this
        exact runRespAux_no_cancel _ _ _ _ hnc he
      · rfl

lemma recovery_trace_prefix (srv : AsyncHTTPServer) (att : AttemptOut) :
    ∃ l, (recoveryPhase srv att).trace = att.trace ++ l := by
  unfold recoveryPhase
  split
  · exact ⟨[], by simp⟩
  · split
    · exact ⟨[], by simp⟩
    · split
      · split
        · exact ⟨_, rfl⟩
        · exact ⟨_, rfl⟩
        · exact ⟨_, rfl⟩
        · exact ⟨_, rfl⟩
      · exact ⟨[], by simp⟩

lemma attempt_routerGet (srv : AsyncHTTPServer) (req0 : Request)
    (hmw : (runRequestMiddleware srv.request_middleware (reqWithApp req0)).1
      = Outcome.ok PyVal.none) :
    Event.routerGet ∈ (attemptPhase srv req0).trace := by
  unfold attemptPhase
  rw [hmw]
  simp only [PyVal.truthy, Bool.false_eq_true, if_false]
  split
  · simp
  · split <;> simp

lemma secondaryRecovery_exception (srv : AsyncHTTPServer) (req : Request) (e2 : Exn)
    (rv : PyVal) (h : e2.isException = true) :
    (secondaryRecovery srv req e2 rv).2.1 = Option.none := by
  unfold secondaryRecovery
  rw [if_pos h]
  split
  · rfl
  · split <;> rfl

lemma recovery_exception_tame (srv : AsyncHTTPServer) (att : AttemptOut) (e : Exn)
    (h : att.out = Outcome.exn e) (hc : e.isCancelled = false)
    (he : e.isException = true)
    (htame : ehTame (srv.error_handler.response att.req e)) :
    (recoveryPhase srv att).pending = Option.none
    ∧ (recoveryPhase srv att).cancelled = false
    ∧ Event.ehResponseCall ∈ (recoveryPhase srv att).trace := by
  rcases heh : srv.error_handler.response att.req e with er | e2
  · cases er with
    | immediate v =>
      rw [recoveryPhase_eh_immediate srv att e v h hc he heh]
      exact ⟨rfl, rfl, by simp⟩
    | awaitable a =>
      cases a with
      | ok v =>
        rw [recoveryPhase_eh_await_ok srv att e v h hc he heh]
        exact ⟨rfl, rfl, by simp⟩
      | exn e2 =>
        have he2 : e2.isException = true := by
          rw [heh] at htame
          exact htame
        rw [recoveryPhase_eh_await_exn srv att e e2 h hc he heh]
        exact ⟨secondaryRecovery_exception srv att.req e2 PyVal.awaitableObj he2,
          rfl, by simp⟩
  · have he2 : e2.isException = true := by
      rw [heh] at htame
      exact htame
    rw [recoveryPhase_eh_sync_exn srv att e e2 h hc he heh]
    exact ⟨secondaryRecovery_exception srv att.req e2 att.respAtRaise he2,
      rfl, by simp⟩

lemma handleTail_fin_cancel (st : ExceptState) (fin : FinallyOut)
    (h : fin.cancelled = true) :
    (handleTail st fin).raised = some Exn.cancelled
    ∧ (handleTail st fin).writes = [] ∧ (handleTail st fin).streams = [] := by
  unfold handleTail
  rw [h]
  exact ⟨rfl, rfl, rfl⟩

lemma handle_noEhDefault (srv : AsyncHTTPServer) (req0 : Request)
    (h : Event.ehDefaultCall ∉ (recoveryPhase srv (attemptPhase srv req0)).trace) :
    Event.ehDefaultCall ∉ (handle_request srv req0).trace := by
  intro hev
  unfold handle_request at hev
  rw [handleTail_trace] at hev
  rcases List.mem_append.mp hev with h1 | h1
  · exact h h1
  · rcases mem_finally_trace _ _ _ _ _ h1 with ⟨j, hj⟩
    simp at hj

lemma handleTail_write (st : ExceptState) (fin : FinallyOut)
    (hp : st.pending = Option.none) (hc : fin.cancelled = false)
    (hs : ∀ s, fin.response ≠ PyVal.streaming s) :
    handleTail st fin = ⟨st.trace ++ fin.trace, [fin.response], [], Option.none⟩ := by
  unfold handleTail
  rw [hp, hc]
  simp only [Bool.false_eq_true, if_false]

/-! The claims. -/

/-- Claim C1, as stated, is refuted by the code: when the handler raises a
signal outside the `Exception` hierarchy that is not the cancellation signal
(here `Exn.baseExc "boom"`), `handle_request` propagates it to the caller
with neither callback invoked, which is neither of the claim's two permitted
terminations (one callback invocation, or a re-raised cancellation). -/
theorem spec_C1_counterexample : ¬ claimC1Holds cxSrv wReq := by
  unfold claimC1Holds
  decide

/-- Claim C1 (amended): every `handle_request` execution terminates in exactly
one of: (a) exactly one of the two output callbacks invoked exactly once,
with no exception propagated; or (b) an exception propagated with neither
callback invoked, that exception being either the cancellation signal or a
non-cancellation signal outside the `Exception` hierarchy.  In particular no
execution both raises and invokes a callback, and none invokes both
callbacks. -/
theorem spec_C1_amended (srv : AsyncHTTPServer) (req0 : Request) :
    ((handle_request srv req0).raised = Option.none
       ∧ (handle_request srv req0).writes.length
           + (handle_request srv req0).streams.length = 1)
    ∨ (∃ e, (handle_request srv req0).raised = some e
       ∧ (handle_request srv req0).writes = []
       ∧ (handle_request srv req0).streams = []
       ∧ (e = Exn.cancelled ∨ (e.isCancelled = false ∧ e.isException = false))) := by
  unfold handle_request
  exact handleTail_cases _ _
    (fun e => recovery_pending_not_exception srv (attemptPhase srv req0) e)

/-- Claim C2: the pre-handler chain runner invokes middleware in insertion
order; the first middleware whose resolved result is truthy halts iteration,
its result becomes the pipeline's response, no later middleware in the list
executes and the handler is never invoked; if the list is empty or every
middleware returns a falsy result, the runner yields no response and the
handler dispatcher (router lookup) runs. -/
theorem spec_C2_request_middleware (srv : AsyncHTTPServer) (req0 : Request) :
    (∀ (pre : List ReqMw) (m : ReqMw) (post : List ReqMw) (w : PyVal),
      srv.request_middleware = pre ++ m :: post →
      (∀ m2 ∈ pre, ∃ v, m2 (reqWithApp req0) = Outcome.ok v ∧ v.truthy = false) →
      m (reqWithApp req0) = Outcome.ok w →
      w.truthy = true →
      runRequestMiddleware srv.request_middleware (reqWithApp req0)
          = (Outcome.ok w, (List.range (pre.length + 1)).map Event.reqMw)
        ∧ (attemptPhase srv req0).out = Outcome.ok w
        ∧ Event.handlerCall ∉ (handle_request srv req0).trace
        ∧ Event.routerGet ∉ (handle_request srv req0).trace)
    ∧ ((∀ m2 ∈ srv.request_middleware,
          ∃ v, m2 (reqWithApp req0) = Outcome.ok v ∧ v.truthy = false) →
      runRequestMiddleware srv.request_middleware (reqWithApp req0)
          = (Outcome.ok PyVal.none,
             (List.range srv.request_middleware.length).map Event.reqMw)
        ∧ Event.routerGet ∈ (handle_request srv req0).trace) := by
  constructor
  · intro pre m post w hmw hpre hm hw
    have hrun : runRequestMiddleware srv.request_middleware (reqWithApp req0)
        = (Outcome.ok w, (List.range (pre.length + 1)).map Event.reqMw) := by
      rw [hmw]
      unfold runRequestMiddleware
      rw [runReqAux_firstTruthy pre m post (reqWithApp req0) 0 w hpre hm hw,
        List.range_eq_range']
    have hatt := attemptPhase_shortCircuit srv req0 w (by rw [hrun]) hw
    have hst := recoveryPhase_ok srv (attemptPhase srv req0) w (by rw [hatt])
    have htr : ∀ ev, ev ∈ (handle_request srv req0).trace →
        (∃ j, ev = Event.reqMw j) ∨ (∃ j, ev = Event.respMw j) := by
      intro ev hev
      unfold handle_request at hev
      rw [handleTail_trace, hst] at hev
      rcases List.mem_append.mp hev with h1 | h1
      · rw [hatt] at h1
        exact Or.inl (mem_runReqAux_trace _ _ _ _ h1)
      · exact Or.inr (mem_finally_trace _ _ _ _ _ h1)
    refine ⟨hrun, by rw [hatt], ?_, ?_⟩
    · intro hev
      rcases htr _ hev with ⟨j, h⟩ | ⟨j, h⟩ <;> simp at h
    · intro hev
      rcases htr _ hev with ⟨j, h⟩ | ⟨j, h⟩ <;> simp at h
  · intro hall
    have hrun : runRequestMiddleware srv.request_middleware (reqWithApp req0)
        = (Outcome.ok PyVal.none,
           (List.range srv.request_middleware.length).map Event.reqMw) := by
      unfold runRequestMiddleware
      rw [runReqAux_allFalsy srv.request_middleware (reqWithApp req0) 0 hall,
        List.range_eq_range']
    refine ⟨hrun, ?_⟩
    unfold handle_request
    rw [handleTail_trace]
    apply List.mem_append.mpr
    left
    obtain ⟨l, hl⟩ := recovery_trace_prefix srv (attemptPhase srv req0)
    rw [hl]
    exact List.mem_append.mpr (Or.inl (attempt_routerGet srv req0 (by rw [hrun])))

/-- Witness for C2: on a concrete server whose middleware list is
`[decline, short-circuit, decline]`, the runner stops after the second
middleware with its response and neither the router nor the handler runs; on
a server whose single middleware declines, the runner yields `None` and the
router is consulted. -/
theorem spec_C2_witness :
    (runRequestMiddleware c2Srv.request_middleware (reqWithApp wReq)
        = (Outcome.ok okRespVal, (List.range 2).map Event.reqMw)
      ∧ (attemptPhase c2Srv wReq).out = Outcome.ok okRespVal
      ∧ Event.handlerCall ∉ (handle_request c2Srv wReq).trace
      ∧ Event.routerGet ∉ (handle_request c2Srv wReq).trace)
    ∧ (runRequestMiddleware c2SrvB.request_middleware (reqWithApp wReq)
        = (Outcome.ok PyVal.none, (List.range 1).map Event.reqMw)
      ∧ Event.routerGet ∈ (handle_request c2SrvB wReq).trace) := by
  constructor
  · exact (spec_C2_request_middleware c2Srv wReq).1 [mwNone] mwResp [mwNone] okRespVal
      rfl
      (by intro m2 h2
          rw [List.mem_singleton] at h2
          subst h2
          exact ⟨PyVal.none, rfl, rfl⟩)
      rfl rfl
  · exact (spec_C2_request_middleware c2SrvB wReq).2
      (by intro m2 h2
          simp only [c2SrvB, mkSrv] at h2
          rw [List.mem_singleton] at h2
          subst h2
          exact ⟨PyVal.none, rfl, rfl⟩)

/-- Claim C3: the post-handler chain runner invokes middleware in insertion
order with `(request, current response)`; the first non-empty (truthy) result
replaces the response and stops iteration, so no later middleware in the list
executes; if no middleware returns a non-empty result the input response is
returned unchanged; and the runner is not executed at all when the current
response is absent (`None`). -/
theorem spec_C3_response_middleware (srv : AsyncHTTPServer) (req : Request)
    (r : PyVal) (req0 : Request) :
    (∀ (pre : List RespMw) (m : RespMw) (post : List RespMw) (w : PyVal),
      srv.response_middleware = pre ++ m :: post →
      (∀ m2 ∈ pre, ∃ v, m2 req r = Outcome.ok v ∧ v.truthy = false) →
      m req r = Outcome.ok w →
      w.truthy = true →
      runResponseMiddleware srv.response_middleware req r
        = (Outcome.ok w, (List.range (pre.length + 1)).map Event.respMw))
    ∧ ((∀ m2 ∈ srv.response_middleware,
          ∃ v, m2 req r = Outcome.ok v ∧ v.truthy = false) →
      runResponseMiddleware srv.response_middleware req r
        = (Outcome.ok r, (List.range srv.response_middleware.length).map Event.respMw))
    ∧ ((recoveryPhase srv (attemptPhase srv req0)).response = PyVal.none →
      ∀ i, Event.respMw i ∉ (handle_request srv req0).trace) := by
  refine ⟨?_, ?_, ?_⟩
  · intro pre m post w hmw hpre hm hw
    rw [hmw]
    unfold runResponseMiddleware
    rw [runRespAux_firstTruthy pre m post req r 0 w hpre hm hw, List.range_eq_range']
  · intro hall
    unfold runResponseMiddleware
    rw [runRespAux_allFalsy srv.response_middleware req r 0 hall, List.range_eq_range']
  · intro hresp i hev
    unfold handle_request at hev
    rw [handleTail_trace] at hev
    rcases List.mem_append.mp hev with h1 | h1
    · rcases mem_recovery_trace srv (attemptPhase srv req0) _ h1 with h2 | h2 | h2
      · rcases mem_attempt_trace srv req0 _ h2 with ⟨j, h3⟩ | h3 | h3 <;> simp at h3
      · simp at h2
      · simp at h2
    · rw [hresp, finallyPhase_noneResp] at h1
      simp at h1

/-- Witness for C3: on a concrete chain `[decline, replace, decline]` the
replacement of the second middleware wins after two invocations; an
all-declining chain passes the input response through unchanged; and when the
pipeline's response is `None` no post-handler middleware event occurs. -/
theorem spec_C3_witness :
    (runResponseMiddleware c3Srv.response_middleware wReq okRespVal
        = (Outcome.ok replacedVal, (List.range 2).map Event.respMw))
    ∧ (runResponseMiddleware c3SrvB.response_middleware wReq okRespVal
        = (Outcome.ok okRespVal, (List.range 1).map Event.respMw))
    ∧ Event.respMw 0 ∉ (handle_request c3SrvC wReq).trace := by
  refine ⟨?_, ?_, ?_⟩
  · exact (spec_C3_response_middleware c3Srv wReq okRespVal wReq).1
      [rmwNone] rmwReplace [rmwNone] replacedVal rfl
      (by intro m2 h2
          rw [List.mem_singleton] at h2
          subst h2
          exact ⟨PyVal.none, rfl, rfl⟩)
      rfl rfl
  · exact (spec_C3_response_middleware c3SrvB wReq okRespVal wReq).2.1
      (by intro m2 h2
          simp only [c3SrvB, mkSrv] at h2
          rw [List.mem_singleton] at h2
          subst h2
          exact ⟨PyVal.none, rfl, rfl⟩)
  · exact (spec_C3_response_middleware c3SrvC wReq okRespVal wReq).2.2 rfl 0

/-- Claim C4: when the pre-handler chain yields no response and the router
resolves a handler, an immediately available handler result `v` becomes the
pipeline's response exactly, with no transformation; a suspended handler
result is resolved and rebuilt into a Buffered response whose body, status and
headers come from the resolved value's `body()`, `status()` and nested
`context().GetResponseHeaders()`, with content-type taken from the mapping's
"Content-Type" entry if present. -/
theorem spec_C4_handler_result (srv : AsyncHTTPServer) (req0 : Request)
    (hd : HandlerSpec)
    (hmw : (runRequestMiddleware srv.request_middleware (reqWithApp req0)).1
      = Outcome.ok PyVal.none)
    (hr : (srv.router (reqWithApp req0)).1 = some hd) :
    (∀ v : PyVal, hd.fn (handlerReq srv req0 hd) = Outcome.ok (.immediate v) →
      (attemptPhase srv req0).out = Outcome.ok v)
    ∧ (∀ res : AdaptableResult,
      hd.fn (handlerReq srv req0 hd) = Outcome.ok (.awaitable (Outcome.ok res)) →
      (attemptPhase srv req0).out
        = Outcome.ok (PyVal.buffered ⟨res.body, res.status, res.headers,
            headersGet res.headers "Content-Type"⟩)) := by
  constructor
  · intro v hf
    rw [attemptPhase_handler srv req0 hd hmw hr, hf]
  · intro res hf
    rw [attemptPhase_handler srv req0 hd hmw hr, hf]

/-- Witness for C4: a handler returning an immediate buffered response yields
exactly that response; a handler whose awaitable resolves to
`body "body", status 201, headers including Content-Type text/plain` yields
the rebuilt Buffered response with that content type. -/
theorem spec_C4_witness :
    (attemptPhase c4Srv wReq).out = Outcome.ok okRespVal
    ∧ (attemptPhase c4SrvB wReq).out
        = Outcome.ok (PyVal.buffered ⟨"body", 201, [("Content-Type", "text/plain")],
            some "text/plain"⟩) := by
  constructor
  · exact (spec_C4_handler_result c4Srv wReq hOk rfl rfl).1 okRespVal rfl
  · exact (spec_C4_handler_result c4SrvB wReq hAwait rfl rfl).2 wAdapt rfl

/-- Claim C5: when the router returns no handler (and the pre-handler chain
yielded no response), the attempt raises the distinct configuration-fault
kind `ServerError` (an `AsyncHTTPException`, not a generic exception); the
fault is routed to the error handler's primary mapping, and provided the
error handler stays within the `Exception` hierarchy and no post-handler
middleware cancels, a response is handed to exactly one output callback and
nothing escapes the pipeline. -/
theorem spec_C5_router_none (srv : AsyncHTTPServer) (req0 : Request)
    (hmw : (runRequestMiddleware srv.request_middleware (reqWithApp req0)).1
      = Outcome.ok PyVal.none)
    (hr : (srv.router (reqWithApp req0)).1 = Option.none)
    (heh : ∀ rq e, ehTame (srv.error_handler.response rq e))
    (hpm : ∀ m ∈ srv.response_middleware, ∀ rq v, m rq v ≠ Outcome.exn Exn.cancelled) :
    (attemptPhase srv req0).out = Outcome.exn (Exn.serverError serverErrorMsg)
    ∧ (Exn.serverError serverErrorMsg).isAsyncHTTPException = true
    ∧ Event.ehResponseCall ∈ (handle_request srv req0).trace
    ∧ (handle_request srv req0).raised = Option.none
    ∧ (handle_request srv req0).writes.length
        + (handle_request srv req0).streams.length = 1 := by
  have hatt := attemptPhase_routerNone srv req0 hmw hr
  have h1 : (attemptPhase srv req0).out
      = Outcome.exn (Exn.serverError serverErrorMsg) := by rw [hatt]
  have hrec := recovery_exception_tame srv (attemptPhase srv req0) _ h1 rfl rfl
    (heh _ _)
  have hfin : (finallyPhase srv (recoveryPhase srv (attemptPhase srv req0)).req
      (recoveryPhase srv (attemptPhase srv req0)).response
      (recoveryPhase srv (attemptPhase srv req0)).cancelled).cancelled = false := by
    rw [hrec.2.1]
    exact finallyPhase_no_cancel srv _ _ hpm
  have hoc := handleTail_one_callback (recoveryPhase srv (attemptPhase srv req0))
    (finallyPhase srv (recoveryPhase srv (attemptPhase srv req0)).req
      (recoveryPhase srv (attemptPhase srv req0)).response
      (recoveryPhase srv (attemptPhase srv req0)).cancelled) hrec.1 hfin
  have hmem : Event.ehResponseCall ∈ (handle_request srv req0).trace := by
    unfold handle_request
    rw [handleTail_trace]
    exact List.mem_append.mpr (Or.inl hrec.2.2)
  exact ⟨h1, rfl, hmem, hoc.1, hoc.2⟩

/-- Witness for C5: a concrete server whose router yields no handler raises
the configuration fault, routes it through the error handler and hands its
response to exactly one callback. -/
theorem spec_C5_witness :
    (attemptPhase c5Srv wReq).out = Outcome.exn (Exn.serverError serverErrorMsg)
    ∧ (Exn.serverError serverErrorMsg).isAsyncHTTPException = true
    ∧ Event.ehResponseCall ∈ (handle_request c5Srv wReq).trace
    ∧ (handle_request c5Srv wReq).raised = Option.none
    ∧ (handle_request c5Srv wReq).writes.length
        + (handle_request c5Srv wReq).streams.length = 1 :=
  spec_C5_router_none c5Srv wReq rfl rfl (fun _ _ => trivial)
    (by intro m hm; simp [c5Srv, mkSrv] at hm)

/-- Claim C6: when the attempt raises an exception and the error handler
primary mapping then raises a second exception inside the `Exception`
hierarchy: an `AsyncHTTPException` yields the error handler default response
for it; otherwise with the debug flag set the response is a Buffered 500
whose body carries the second exception's message and a formatted trace;
otherwise a Buffered 500 with the fixed opaque body. -/
theorem spec_C6_secondary_recovery (srv : AsyncHTTPServer) (req0 : Request)
    (e1 e2 : Exn)
    (h1 : (attemptPhase srv req0).out = Outcome.exn e1)
    (hc1 : e1.isCancelled = false)
    (he1 : e1.isException = true)
    (heh : srv.error_handler.response (attemptPhase srv req0).req e1 = Outcome.exn e2)
    (he2 : e2.isException = true) :
    (e2.isAsyncHTTPException = true →
      (recoveryPhase srv (attemptPhase srv req0)).response
        = srv.error_handler.default (attemptPhase srv req0).req e2)
    ∧ (e2.isAsyncHTTPException = false → srv.debug = true →
      (recoveryPhase srv (attemptPhase srv req0)).response
        = PyVal.buffered ⟨"Error while handling error: " ++ excStr e2 ++ "\nStack: "
            ++ format_exc e2, 500, [], Option.none⟩)
    ∧ (e2.isAsyncHTTPException = false → srv.debug = false →
      (recoveryPhase srv (attemptPhase srv req0)).response
        = PyVal.buffered ⟨"An error occurred while handling an error", 500, [],
            Option.none⟩) := by
  have hrec := recoveryPhase_eh_sync_exn srv (attemptPhase srv req0) e1 e2 h1 hc1
    he1 heh
  refine ⟨?_, ?_, ?_⟩
  · intro hhttp
    rw [hrec]
    show (secondaryRecovery srv (attemptPhase srv req0).req e2
      (attemptPhase srv req0).respAtRaise).1 = _
    rw [secondaryRecovery_http srv _ e2 _ he2 hhttp]
  · intro hhttp hdbg
    rw [hrec]
    show (secondaryRecovery srv (attemptPhase srv req0).req e2
      (attemptPhase srv req0).respAtRaise).1 = _
    rw [secondaryRecovery_debug srv _ e2 _ he2 hhttp hdbg]
  · intro hhttp hdbg
    rw [hrec]
    show (secondaryRecovery srv (attemptPhase srv req0).req e2
      (attemptPhase srv req0).respAtRaise).1 = _
    rw [secondaryRecovery_fixed500 srv _ e2 _ he2 hhttp hdbg]

/-- Witness for C6: double failures on concrete servers — an
`AsyncHTTPException` second failure renders the default response; a generic
second failure renders the verbose 500 when debug is on and the opaque 500
when debug is off. -/
theorem spec_C6_witness :
    (recoveryPhase c6Srv (attemptPhase c6Srv wReq)).response = defaultVal
    ∧ (recoveryPhase c6SrvDbg (attemptPhase c6SrvDbg wReq)).response
        = PyVal.buffered ⟨"Error while handling error: "
            ++ excStr (Exn.otherExc "second failure") ++ "\nStack: "
            ++ format_exc (Exn.otherExc "second failure"), 500, [], Option.none⟩
    ∧ (recoveryPhase c6SrvProd (attemptPhase c6SrvProd wReq)).response
        = PyVal.buffered ⟨"An error occurred while handling an error", 500, [],
            Option.none⟩ := by
  refine ⟨?_, ?_, ?_⟩
  · exact (spec_C6_secondary_recovery c6Srv wReq (Exn.otherExc "first failure")
      (Exn.asyncHTTPExc "second failure") rfl rfl rfl rfl rfl).1 rfl
  · exact (spec_C6_secondary_recovery c6SrvDbg wReq (Exn.otherExc "first failure")
      (Exn.otherExc "second failure") rfl rfl rfl rfl rfl).2.1 rfl rfl
  · exact (spec_C6_secondary_recovery c6SrvProd wReq (Exn.otherExc "first failure")
      (Exn.otherExc "second failure") rfl rfl rfl rfl rfl).2.2 rfl rfl

/-- Claim C7: cancellation outranks every other exception class throughout
the recovery cascade.  (1) a cancellation in the attempt phase re-raises with
no callback and no error-handler activity; (2) a cancellation raised while
the error handler primary mapping is called or resolved is never converted
into a response: no secondary recovery (default branch) runs, no callback is
invoked and the cancellation is re-signaled; (3) a cancellation inside the
post-handler middleware chain likewise re-raises with no callback. -/
theorem spec_C7_cancellation_priority (srv : AsyncHTTPServer) (req0 : Request) :
    ((attemptPhase srv req0).out = Outcome.exn Exn.cancelled →
      (handle_request srv req0).raised = some Exn.cancelled
      ∧ (handle_request srv req0).writes = []
      ∧ (handle_request srv req0).streams = []
      ∧ Event.ehResponseCall ∉ (handle_request srv req0).trace
      ∧ Event.ehDefaultCall ∉ (handle_request srv req0).trace)
    ∧ (∀ e, (attemptPhase srv req0).out = Outcome.exn e →
      e.isCancelled = false → e.isException = true →
      (srv.error_handler.response (attemptPhase srv req0).req e
          = Outcome.exn Exn.cancelled
        ∨ srv.error_handler.response (attemptPhase srv req0).req e
          = Outcome.ok (.awaitable (Outcome.exn Exn.cancelled))) →
      (handle_request srv req0).raised = some Exn.cancelled
      ∧ (handle_request srv req0).writes = []
      ∧ (handle_request srv req0).streams = []
      ∧ Event.ehDefaultCall ∉ (handle_request srv req0).trace)
    ∧ (∀ r, (recoveryPhase srv (attemptPhase srv req0)).response = r →
      ¬ r = PyVal.none →
      (runResponseMiddleware srv.response_middleware
          (recoveryPhase srv (attemptPhase srv req0)).req r).1
        = Outcome.exn Exn.cancelled →
      (handle_request srv req0).raised = some Exn.cancelled
      ∧ (handle_request srv req0).writes = []
      ∧ (handle_request srv req0).streams = []) := by
  refine ⟨?_, ?_, ?_⟩
  · intro hatt
    have hst := recoveryPhase_cancelled srv (attemptPhase srv req0) hatt
    have hfc : (finallyPhase srv (recoveryPhase srv (attemptPhase srv req0)).req
        (recoveryPhase srv (attemptPhase srv req0)).response
        (recoveryPhase srv (attemptPhase srv req0)).cancelled).cancelled = true := by
      rw [hst]
      rfl
    have htail := handleTail_fin_cancel (recoveryPhase srv (attemptPhase srv req0))
      (finallyPhase srv (recoveryPhase srv (attemptPhase srv req0)).req
        (recoveryPhase srv (attemptPhase srv req0)).response
        (recoveryPhase srv (attemptPhase srv req0)).cancelled) hfc
    have htrace : ∀ ev, ev ∈ (handle_request srv req0).trace →
        ev ∈ (attemptPhase srv req0).trace ∨ ∃ j, ev = Event.respMw j := by
      intro ev hev
      unfold handle_request at hev
      rw [handleTail_trace, hst] at hev
      rcases List.mem_append.mp hev with h1 | h1
      · exact Or.inl h1
      · exact Or.inr (mem_finally_trace _ _ _ _ _ h1)
    refine ⟨htail.1, htail.2.1, htail.2.2, ?_, ?_⟩
    · intro hev
      rcases htrace _ hev with h1 | ⟨j, hj⟩
      · rcases mem_attempt_trace srv req0 _ h1 with ⟨j, hj⟩ | hj | hj <;> simp at hj
      · simp at hj
    · intro hev
      rcases htrace _ hev with h1 | ⟨j, hj⟩
      · rcases mem_attempt_trace srv req0 _ h1 with ⟨j, hj⟩ | hj | hj <;> simp at hj
      · simp at hj
  · intro e hatt hc he hdis
    have hpend : (recoveryPhase srv (attemptPhase srv req0)).pending
        = some Exn.cancelled := by
      rcases hdis with heh | heh
      · rw [recoveryPhase_eh_sync_exn srv (attemptPhase srv req0) e Exn.cancelled
          hatt hc he heh]
        show (secondaryRecovery srv (attemptPhase srv req0).req Exn.cancelled
          (attemptPhase srv req0).respAtRaise).2.1 = _
        rw [secondaryRecovery_notException srv _ Exn.cancelled _ rfl]
      · rw [recoveryPhase_eh_await_exn srv (attemptPhase srv req0) e Exn.cancelled
          hatt hc he heh]
        show (secondaryRecovery srv (attemptPhase srv req0).req Exn.cancelled
          PyVal.awaitableObj).2.1 = _
        rw [secondaryRecovery_notException srv _ Exn.cancelled _ rfl]
    have htail := handleTail_pending_cancel (recoveryPhase srv (attemptPhase srv req0))
      (finallyPhase srv (recoveryPhase srv (attemptPhase srv req0)).req
        (recoveryPhase srv (attemptPhase srv req0)).response
        (recoveryPhase srv (attemptPhase srv req0)).cancelled) hpend
    have hnod : Event.ehDefaultCall ∉ (recoveryPhase srv (attemptPhase srv req0)).trace := by
      intro hev
      have hrt : (recoveryPhase srv (attemptPhase srv req0)).trace
          = (attemptPhase srv req0).trace ++ [Event.ehResponseCall] := by
        rcases hdis with heh | heh
        · rw [recoveryPhase_eh_sync_exn srv (attemptPhase srv req0) e Exn.cancelled
            hatt hc he heh]
          show (attemptPhase srv req0).trace ++ Event.ehResponseCall
            :: (secondaryRecovery srv (attemptPhase srv req0).req Exn.cancelled
              (attemptPhase srv req0).respAtRaise).2.2 = _
          rw [secondaryRecovery_notException srv _ Exn.cancelled _ rfl]
        · rw [recoveryPhase_eh_await_exn srv (attemptPhase srv req0) e Exn.cancelled
            hatt hc he heh]
          show (attemptPhase srv req0).trace ++ Event.ehResponseCall
            :: (secondaryRecovery srv (attemptPhase srv req0).req Exn.cancelled
              PyVal.awaitableObj).2.2 = _
          rw [secondaryRecovery_notException srv _ Exn.cancelled _ rfl]
      rw [hrt] at hev
      rcases List.mem_append.mp hev with h1 | h1
      · rcases mem_attempt_trace srv req0 _ h1 with ⟨j, hj⟩ | hj | hj <;> simp at hj
      · simp at h1
    exact ⟨htail.1, htail.2.1, htail.2.2, handle_noEhDefault srv req0 hnod⟩
  · intro r hr hrn hcanc
    have hfc : (finallyPhase srv (recoveryPhase srv (attemptPhase srv req0)).req
        (recoveryPhase srv (attemptPhase srv req0)).response
        (recoveryPhase srv (attemptPhase srv req0)).cancelled).cancelled = true := by
      rw [hr, finallyPhase_cancel srv (recoveryPhase srv (attemptPhase srv req0)).req
        r (recoveryPhase srv (attemptPhase srv req0)).cancelled hrn hcanc]
    exact handleTail_fin_cancel _ _ hfc

/-- Witness for C7: on concrete servers, cancellation inside the handler,
cancellation inside the error handler primary mapping, and cancellation
inside a post-handler middleware each re-raise the cancellation with neither
output callback invoked. -/
theorem spec_C7_witness :
    ((handle_request c7Srv wReq).raised = some Exn.cancelled
      ∧ (handle_request c7Srv wReq).writes = []
      ∧ (handle_request c7Srv wReq).streams = []
      ∧ Event.ehResponseCall ∉ (handle_request c7Srv wReq).trace
      ∧ Event.ehDefaultCall ∉ (handle_request c7Srv wReq).trace)
    ∧ ((handle_request c7SrvB wReq).raised = some Exn.cancelled
      ∧ (handle_request c7SrvB wReq).writes = []
      ∧ (handle_request c7SrvB wReq).streams = []
      ∧ Event.ehDefaultCall ∉ (handle_request c7SrvB wReq).trace)
    ∧ ((handle_request c8SrvCancel wReq).raised = some Exn.cancelled
      ∧ (handle_request c8SrvCancel wReq).writes = []
      ∧ (handle_request c8SrvCancel wReq).streams = []) :=
  ⟨(spec_C7_cancellation_priority c7Srv wReq).1 rfl,
   (spec_C7_cancellation_priority c7SrvB wReq).2.1 (Exn.otherExc "first failure")
     rfl rfl rfl (Or.inl rfl),
   (spec_C7_cancellation_priority c8SrvCancel wReq).2.2 okRespVal rfl
     (by decide) rfl⟩

/-- Claim C8: in the done state the post-handler chain is always attempted
when a response is present (the `finally` trace is exactly the chain's trace)
and never when the response is `None`; a cancellation inside the chain
discards the computed response, invokes neither callback and re-raises; any
other exception inside the chain is swallowed and the previously computed
response is preserved and still delivered. -/
theorem spec_C8_done_state (srv : AsyncHTTPServer) (req0 : Request) :
    (∀ (req : Request) (resp : PyVal) (c : Bool), ¬ resp = PyVal.none →
      (finallyPhase srv req resp c).trace
        = (runResponseMiddleware srv.response_middleware req resp).2)
    ∧ (∀ (req : Request) (c : Bool), (finallyPhase srv req PyVal.none c).trace = [])
    ∧ (∀ r, (recoveryPhase srv (attemptPhase srv req0)).response = r →
      ¬ r = PyVal.none →
      (runResponseMiddleware srv.response_middleware
          (recoveryPhase srv (attemptPhase srv req0)).req r).1
        = Outcome.exn Exn.cancelled →
      (handle_request srv req0).raised = some Exn.cancelled
      ∧ (handle_request srv req0).writes = []
      ∧ (handle_request srv req0).streams = [])
    ∧ (∀ r e, (recoveryPhase srv (attemptPhase srv req0)).response = r →
      ¬ r = PyVal.none →
      (recoveryPhase srv (attemptPhase srv req0)).pending = Option.none →
      (recoveryPhase srv (attemptPhase srv req0)).cancelled = false →
      (runResponseMiddleware srv.response_middleware
          (recoveryPhase srv (attemptPhase srv req0)).req r).1 = Outcome.exn e →
      e.isCancelled = false →
      (handle_request srv req0).raised = Option.none
      ∧ (handle_request srv req0).writes
          ++ (handle_request srv req0).streams.map PyVal.streaming = [r]) := by
  refine ⟨?_, ?_, ?_, ?_⟩
  · intro req resp c hrn
    unfold finallyPhase
    rw [if_neg hrn]
    split
    · rfl
    · split <;> rfl
  · intro req c
    rw [finallyPhase_noneResp]
  · intro r hr hrn hcanc
    have hfc : (finallyPhase srv (recoveryPhase srv (attemptPhase srv req0)).req
        (recoveryPhase srv (attemptPhase srv req0)).response
        (recoveryPhase srv (attemptPhase srv req0)).cancelled).cancelled = true := by
      rw [hr, finallyPhase_cancel srv (recoveryPhase srv (attemptPhase srv req0)).req
        r (recoveryPhase srv (attemptPhase srv req0)).cancelled hrn hcanc]
    exact handleTail_fin_cancel _ _ hfc
  · intro r e hr hrn hpend hcanc hrun hec
    have hfin := finallyPhase_swallow srv
      (recoveryPhase srv (attemptPhase srv req0)).req r
      (recoveryPhase srv (attemptPhase srv req0)).cancelled e hrn hrun hec
    have hfc : (finallyPhase srv (recoveryPhase srv (attemptPhase srv req0)).req
        (recoveryPhase srv (attemptPhase srv req0)).response
        (recoveryPhase srv (attemptPhase srv req0)).cancelled).cancelled = false := by
      rw [hr, hfin]
      exact hcanc
    have hdel := handleTail_delivers (recoveryPhase srv (attemptPhase srv req0))
      (finallyPhase srv (recoveryPhase srv (attemptPhase srv req0)).req
        (recoveryPhase srv (attemptPhase srv req0)).response
        (recoveryPhase srv (attemptPhase srv req0)).cancelled) hpend hfc
    have hresp : (finallyPhase srv (recoveryPhase srv (attemptPhase srv req0)).req
        (recoveryPhase srv (attemptPhase srv req0)).response
        (recoveryPhase srv (attemptPhase srv req0)).cancelled).response = r := by
      rw [hr, hfin]
    refine ⟨hdel.1, ?_⟩
    unfold handle_request
    rw [hdel.2, hresp]

/-- Witness for C8: on concrete servers, the `finally` trace equals the
chain trace when a response is present and is empty when it is `None`;
a cancelling post-handler middleware yields a re-raised cancellation with no
output; an ordinary failing post-handler middleware is swallowed and the
handler's response is still written. -/
theorem spec_C8_witness :
    ((finallyPhase c8SrvSwallow wReq okRespVal false).trace
        = (runResponseMiddleware c8SrvSwallow.response_middleware wReq okRespVal).2)
    ∧ ((finallyPhase c8SrvSwallow wReq PyVal.none false).trace = [])
    ∧ ((handle_request c8SrvCancel wReq).raised = some Exn.cancelled
      ∧ (handle_request c8SrvCancel wReq).writes = []
      ∧ (handle_request c8SrvCancel wReq).streams = [])
    ∧ ((handle_request c8SrvSwallow wReq).raised = Option.none
      ∧ (handle_request c8SrvSwallow wReq).writes
          ++ (handle_request c8SrvSwallow wReq).streams.map PyVal.streaming
        = [okRespVal]) :=
  ⟨(spec_C8_done_state c8SrvSwallow wReq).1 wReq okRespVal false (by decide),
   (spec_C8_done_state c8SrvSwallow wReq).2.1 wReq false,
   (spec_C8_done_state c8SrvCancel wReq).2.2.1 okRespVal rfl (by decide) rfl,
   (spec_C8_done_state c8SrvSwallow wReq).2.2.2 okRespVal (Exn.otherExc "mw fail")
     rfl (by decide) rfl rfl rfl rfl⟩

/-- Claim C9: when the pre-handler chain yields no response and the handler
returns an immediate `None`, the pipeline completes without error or
cancellation, the post-handler chain is skipped (the response is absent) and
the single-shot write callback is still invoked exactly once with `None`. -/
theorem spec_C9_handler_none (srv : AsyncHTTPServer) (req0 : Request)
    (hd : HandlerSpec)
    (hmw : (runRequestMiddleware srv.request_middleware (reqWithApp req0)).1
      = Outcome.ok PyVal.none)
    (hr : (srv.router (reqWithApp req0)).1 = some hd)
    (hf : hd.fn (handlerReq srv req0 hd) = Outcome.ok (.immediate PyVal.none)) :
    (handle_request srv req0).raised = Option.none
    ∧ (handle_request srv req0).writes = [PyVal.none]
    ∧ (handle_request srv req0).streams = []
    ∧ ∀ i, Event.respMw i ∉ (handle_request srv req0).trace := by
  have hatt : (attemptPhase srv req0).out = Outcome.ok PyVal.none := by
    rw [attemptPhase_handler srv req0 hd hmw hr, hf]
  have hst := recoveryPhase_ok srv (attemptPhase srv req0) PyVal.none hatt
  have hresp : (recoveryPhase srv (attemptPhase srv req0)).response = PyVal.none := by
    rw [hst]
  have hfin : (finallyPhase srv (recoveryPhase srv (attemptPhase srv req0)).req
      (recoveryPhase srv (attemptPhase srv req0)).response
      (recoveryPhase srv (attemptPhase srv req0)).cancelled)
      = ⟨PyVal.none, false, []⟩ := by
    rw [hst]
    rfl
  have hw := handleTail_write (recoveryPhase srv (attemptPhase srv req0))
    (finallyPhase srv (recoveryPhase srv (attemptPhase srv req0)).req
      (recoveryPhase srv (attemptPhase srv req0)).response
      (recoveryPhase srv (attemptPhase srv req0)).cancelled)
    (by rw [hst]) (by rw [hfin]) (by intro s; rw [hfin]; simp)
  refine ⟨?_, ?_, ?_, ?_⟩
  · unfold handle_request
    rw [hw]
  · unfold handle_request
    rw [hw, hfin]
  · unfold handle_request
    rw [hw]
  · intro i hev
    unfold handle_request at hev
    rw [handleTail_trace] at hev
    rcases List.mem_append.mp hev with h1 | h1
    · rw [hst] at h1
      rcases mem_attempt_trace srv req0 _ h1 with ⟨j, hj⟩ | hj | hj <;> simp at hj
    · rw [hresp, finallyPhase_noneResp] at h1
      simp at h1

/-- Witness for C9: a concrete server whose handler returns `None` writes
`None` exactly once through the write callback, with no response middleware
event and nothing raised. -/
theorem spec_C9_witness :
    (handle_request c9Srv wReq).raised = Option.none
    ∧ (handle_request c9Srv wReq).writes = [PyVal.none]
    ∧ (handle_request c9Srv wReq).streams = []
    ∧ Event.respMw 0 ∉ (handle_request c9Srv wReq).trace :=
  ⟨(spec_C9_handler_none c9Srv wReq hNone rfl rfl rfl).1,
   (spec_C9_handler_none c9Srv wReq hNone rfl rfl rfl).2.1,
   (spec_C9_handler_none c9Srv wReq hNone rfl rfl rfl).2.2.1,
   (spec_C9_handler_none c9Srv wReq hNone rfl rfl rfl).2.2.2 0⟩

/-- Claim C10: the swallowing branch of the `finally` block catches every
non-cancellation `BaseException`, not only `Exception`: a signal outside the
`Exception` hierarchy raised by a post-handler middleware is also swallowed,
and the previously computed response is still delivered to an output callback
instead of the signal propagating to the caller. -/
theorem spec_C10_swallow_base (srv : AsyncHTTPServer) (req0 : Request)
    (r : PyVal) (e : Exn)
    (hr : (recoveryPhase srv (attemptPhase srv req0)).response = r)
    (hrn : ¬ r = PyVal.none)
    (hpend : (recoveryPhase srv (attemptPhase srv req0)).pending = Option.none)
    (hcanc : (recoveryPhase srv (attemptPhase srv req0)).cancelled = false)
    (hrun : (runResponseMiddleware srv.response_middleware
        (recoveryPhase srv (attemptPhase srv req0)).req r).1 = Outcome.exn e)
    (hec : e.isCancelled = false) (_hee : e.isException = false) :
    (handle_request srv req0).raised = Option.none
    ∧ (handle_request srv req0).writes
        ++ (handle_request srv req0).streams.map PyVal.streaming = [r] := by
  have hfin := finallyPhase_swallow srv
    (recoveryPhase srv (attemptPhase srv req0)).req r
    (recoveryPhase srv (attemptPhase srv req0)).cancelled e hrn hrun hec
  have hfc : (finallyPhase srv (recoveryPhase srv (attemptPhase srv req0)).req
      (recoveryPhase srv (attemptPhase srv req0)).response
      (recoveryPhase srv (attemptPhase srv req0)).cancelled).cancelled = false := by
    rw [hr, hfin]
    exact hcanc
  have hdel := handleTail_delivers (recoveryPhase srv (attemptPhase srv req0))
    (finallyPhase srv (recoveryPhase srv (attemptPhase srv req0)).req
      (recoveryPhase srv (attemptPhase srv req0)).response
      (recoveryPhase srv (attemptPhase srv req0)).cancelled) hpend hfc
  have hresp : (finallyPhase srv (recoveryPhase srv (attemptPhase srv req0)).req
      (recoveryPhase srv (attemptPhase srv req0)).response
      (recoveryPhase srv (attemptPhase srv req0)).cancelled).response = r := by
    rw [hr, hfin]
  refine ⟨hdel.1, ?_⟩
  unfold handle_request
  rw [hdel.2, hresp]

/-- Witness for C10: a post-handler middleware raising the bare
`BaseException`-level signal `baseExc "sig"` is swallowed and the handler's
buffered response is still written exactly once. -/
theorem spec_C10_witness :
    (handle_request c10Srv wReq).raised = Option.none
    ∧ (handle_request c10Srv wReq).writes
        ++ (handle_request c10Srv wReq).streams.map PyVal.streaming
      = [okRespVal] :=
  spec_C10_swallow_base c10Srv wReq okRespVal (Exn.baseExc "sig") rfl (by decide)
    rfl rfl rfl rfl rfl

end AsyncHttp
